import Mathlib

/-!
Verification of the MemCloud deployment orchestrator against its specification.

The definitions below are a shallow embedding of the Python sources:
  backend/app/api/v1/endpoints/deployment.py   (orchestrator, broadcaster, registry)
  backend/app/api/v1/endpoints/instances.py    (instance lifecycle endpoints)
  backend/app/services/memmachine_deployer.py  (provisioners, validator, rollback)
  backend/app/core/config.py                   (Settings)
  backend/app/models/instance.py               (InstanceStatus)

External effects (GCP control-plane calls, database commits, HTTP health probes,
WebSocket sends) are modelled by explicit outcome parameters: each call site
receives its outcome (success value or raised-exception message) from an
environment record, and the embedding replays the source's control flow over
those outcomes.  Wall-clock timestamps and the never-mutated `phases` /
`technical_debt` fields of DeploymentStatus are not modelled.
-/

namespace MemCloud

/-- InstanceStatus from backend/app/models/instance.py. -/
inductive InstanceStatus where
  | creating
  | running
  | stopped
  | failed
  | deleting
  | deleted
deriving DecidableEq, Repr

/-- Step status values used by deployment.py (`status` field of DeploymentStep:
"pending, in_progress, completed, failed"). -/
inductive StepStatus where
  | pending
  | in_progress
  | completed
  | failed
deriving DecidableEq, Repr

/-- DeploymentPhase enum from deployment.py. -/
inductive DeploymentPhase where
  | DISCOVERY
  | ARCHITECTURE
  | MVP_CORE
  | MVP_POLISH
  | BETA
  | PRODUCTION
  | EVOLUTION
deriving DecidableEq, Repr

/-- DeploymentStep from deployment.py.  The wall-clock `started_at` /
`completed_at` timestamps are not modelled. -/
structure Step where
  id : String
  phase : DeploymentPhase
  name : String
  status : StepStatus
  progress : Nat
  error : Option String
  details : Option (List (String × String))
deriving DecidableEq, Repr

/-- DeploymentStatus from deployment.py.  The `phases` dictionary and
`technical_debt` list are never mutated by the pipeline and are omitted. -/
structure DeploymentStatus where
  deployment_id : String
  overall_progress : Nat
  current_phase : DeploymentPhase
  quality_score : Nat
  steps : List Step
  endpoints : Option (List (String × String))
  success : Bool
  decisions_made : List String
deriving DecidableEq, Repr

/-!
Progress broadcaster: `broadcast_update` in deployment.py iterates over the
list `deployment_connections[deployment_id]` with a Python list iterator and,
when `websocket.send_json` raises, calls `.remove(websocket)` on the list being
iterated.  A Python list iterator keeps an integer cursor: after yielding the
element at position p the cursor is p + 1; removing that element shifts the
remainder left, so the next call reads the element that was at p + 2 and the
element originally at p + 1 is never yielded.  `broadcastFrom` reproduces this
cursor semantics exactly; a channel is modelled by its id plus whether its send
raises.
-/

/-- A subscriber channel: `failing = true` means `send_json` raises for it. -/
structure Channel where
  id : String
  failing : Bool
deriving DecidableEq, Repr

/-- One pass of the `for websocket in deployment_connections[deployment_id]`
loop of `broadcast_update`, starting with the iterator cursor at `i`.
Returns the ids that received the snapshot and the connection list as it
stands after the loop.  `fuel` bounds the number of iterator steps: every
step advances the cursor by one and the list never grows, so the loop makes
at most the list's original length many steps; `broadcastUpdate` supplies
exactly that bound, which the loop therefore never exhausts. -/
def broadcastFrom (conns : List Channel) (i : Nat) (delivered : List String) :
    Nat → List String × List Channel
  | 0 => (delivered, conns)
  | fuel + 1 =>
    match conns[i]? with
    | none => (delivered, conns)
    | some c =>
      if c.failing then
        broadcastFrom (conns.erase c) (i + 1) delivered fuel
      else
        broadcastFrom conns (i + 1) (delivered ++ [c.id]) fuel

/-- `broadcast_update(deployment_id)` restricted to one registered deployment:
pushes the current snapshot to the connection list, removing channels whose
send raises. -/
def broadcastUpdate (conns : List Channel) : List String × List Channel :=
  broadcastFrom conns 0 [] conns.length

/-!
The deployment pipeline `execute_deployment` of deployment.py (lines 142-382).

Every external call site receives its outcome from an `Env` record.  The
embedding first replays the source's control flow to build the flat list of
primitive actions the run performs, in source order (`program`): appending a
step, performing an external operation, completing a step, assigning
overall_progress, setting the final results, saving the Instance, or entering
the exception handler.  An exception at a call site truncates the program at
the corresponding `abort` action, exactly as the `except` block receives
control.  The run's observable state is then derived from that action list by
folds that embed the source's helper functions: `add_step` appends the step
and broadcasts; `complete_step` marks the first step with the id completed,
stores the details and broadcasts; `broadcast_update` pushes the snapshot
(its progress and success fields at that moment); the handler sets
success = False, best-effort marks the Instance failed with the error text,
and broadcasts.  No action marks a step failed, and no action deletes a
resource: the handler has no rollback call, and `_rollback_deployment` (see
`rollbackDeployment` below) is an empty stub.
-/

/-- Outcome of one external call: either the returned value or the message of
the raised exception. -/
inductive CallResult (α : Type) where
  | ok (value : α)
  | raised (msg : String)
deriving DecidableEq, Repr

/-- Observable events of one pipeline run, in program order. -/
inductive Event where
  | storeSecret (name value : String)
  | createCloudSql (name : String)
  | createNeo4jService (name : String)
  | createMemmachineService (name : String)
  | healthCheck
  | deleteCloudRunService (name : String)
  | deleteCloudSql (name : String)
  | deleteSecret (name : String)
  | stepAdded (id : String) (st : StepStatus)
  | stepCompleted (id : String)
  | broadcast (progress : Nat) (success : Bool)
  | instanceWrite (st : InstanceStatus) (error : Option String)
deriving DecidableEq, Repr

/-- Outcomes of the external calls made by `execute_deployment`, in source
order.  `postgres_password` and `neo4j_password_generated` stand for the
`secrets.token_urlsafe(32)` results.  `db_save` is the database block that
persists the finished Instance (deployment.py lines 324-357); `db_fail_update`
is the inner try of the exception handler that marks the Instance failed
(lines 366-380): its `raised` case also covers the lookup returning no row,
since both leave the durable record unwritten. -/
structure Env where
  store_openai : CallResult Unit
  postgres_password : String
  store_postgres : CallResult Unit
  deploy_cloud_sql : CallResult (String × String)
  neo4j_password_generated : String
  store_neo4j : CallResult Unit
  deploy_neo4j : CallResult (String × String)
  deploy_memmachine : CallResult String
  db_save : CallResult Unit
  db_fail_update : CallResult Unit
deriving DecidableEq, Repr

/-- The DeploymentRequest body of deployment.py. -/
structure DeploymentRequest where
  deployment_id : String
  name : String
  openai_api_key : String
  user_id : String
  neo4j_uri : Option String
  neo4j_user : Option String
  neo4j_password : Option String
deriving DecidableEq, Repr

/-- Python truthiness of an optional string: None and the empty string are
falsy. -/
def truthy : Option String → Bool
  | none => false
  | some s => !(s == "")

/-- The primitive actions a pipeline run performs, in source order.
`add` is a call to `add_step`; `op` is an external call that succeeded;
`complete` is a call to `complete_step`; `setProg` is an assignment to
`status.overall_progress`; `finalizeOk` is the block that sets
`status.endpoints`, `status.success = True`, `quality_score = 95` and appends
the decision entry; `saveOk` is the successful Instance save plus the final
broadcast; `abort msg dbOk` is entry into the `except` handler with the error
text, `dbOk` telling whether the handler's own Instance update committed. -/
inductive Act where
  | add (st : Step)
  | op (e : Event)
  | complete (i : String) (details : Option (List (String × String)))
  | setProg (p : Nat)
  | finalizeOk (endpoints : List (String × String)) (decision : String)
  | saveOk
  | abort (msg : String) (dbOk : Bool)
deriving DecidableEq, Repr

/-- A DeploymentStep as constructed in execute_deployment: status
"in_progress", no error, no details. -/
def mkStep (i : String) (phase : DeploymentPhase) (name : String)
    (progress : Nat) : Step :=
  { id := i, phase := phase, name := name, status := .in_progress,
    progress := progress, error := none, details := none }

/-- Whether the exception handler's own Instance update commits. -/
def dbOkOf : CallResult Unit → Bool
  | .ok _ => true
  | .raised _ => false

/-- Steps 4-6 of execute_deployment (deployment.py lines 255-359), shared by
both graph-database branches.  The environment-variable wiring passed to
`_deploy_memmachine` is not modelled beyond the create call itself; the
health validation of step 5 never raises (see `validateDeployment`), so it
carries no outcome in `Env`. -/
def stage456 (req : DeploymentRequest) (env : Env)
    (postgres_ip neo4j_url : String) : List Act :=
  [Act.add (mkStep "memmachine-deploy" .MVP_CORE
     "Deploying MemMachine API with your configuration" 60),
   Act.op (.createMemmachineService ("memmachine-" ++ req.deployment_id))] ++
  match env.deploy_memmachine with
  | .raised e => [Act.abort e (dbOkOf env.db_fail_update)]
  | .ok memmachine_url =>
    [Act.complete "memmachine-deploy" (some [("memmachine_url", memmachine_url)]),
     Act.setProg 85,
     Act.add (mkStep "health-check" .BETA
       "Running health checks on MemMachine API" 90),
     Act.op .healthCheck,
     Act.complete "health-check" none,
     Act.setProg 95,
     Act.add (mkStep "finalize" .PRODUCTION
       "Deployment complete! Your MemMachine is ready" 98),
     Act.complete "finalize" none,
     Act.finalizeOk
       [("memmachine_api", memmachine_url),
        ("postgres", postgres_ip ++ ":5432"),
        ("neo4j", neo4j_url),
        ("playground", "/playground/" ++ req.deployment_id)]
       ("Deployed instance " ++ req.deployment_id ++ " to GCP"),
     Act.setProg 100] ++
    match env.db_save with
    | .raised e => [Act.abort e (dbOkOf env.db_fail_update)]
    | .ok _ => [Act.saveOk]

/-- The action list of one run of `execute_deployment`, following the source
statement by statement; an exception at a call site truncates the list at the
`abort` of the handler. -/
def program (req : DeploymentRequest) (env : Env) : List Act :=
  [Act.add (mkStep "secret-openai" .DISCOVERY
     "Storing OpenAI API key in Secret Manager" 2),
   Act.op (.storeSecret ("openai-key-" ++ req.deployment_id)
     req.openai_api_key)] ++
  match env.store_openai with
  | .raised e => [Act.abort e (dbOkOf env.db_fail_update)]
  | .ok _ =>
    [Act.complete "secret-openai" none,
     Act.setProg 5,
     Act.add (mkStep "postgres-create" .ARCHITECTURE
       "Creating Cloud SQL PostgreSQL instance (this takes 3-5 minutes)" 10),
     Act.op (.storeSecret ("postgres-pass-" ++ req.deployment_id)
       env.postgres_password)] ++
    match env.store_postgres with
    | .raised e => [Act.abort e (dbOkOf env.db_fail_update)]
    | .ok _ =>
      [Act.op (.createCloudSql ("memmachine-" ++ req.deployment_id))] ++
      match env.deploy_cloud_sql with
      | .raised e => [Act.abort e (dbOkOf env.db_fail_update)]
      | .ok ipconn =>
        [Act.complete "postgres-create"
           (some [("postgres_ip", ipconn.1), ("connection", ipconn.2)]),
         Act.setProg 35] ++
        if truthy req.neo4j_uri && truthy req.neo4j_user &&
            truthy req.neo4j_password then
          [Act.add (mkStep "neo4j-setup" .MVP_CORE
             "Configuring Neo4j Aura connection (managed service)" 40),
           Act.op (.storeSecret ("neo4j-aura-pass-" ++ req.deployment_id)
             ((req.neo4j_password).getD ""))] ++
          match env.store_neo4j with
          | .raised e => [Act.abort e (dbOkOf env.db_fail_update)]
          | .ok _ =>
            [Act.complete "neo4j-setup"
               (some [("neo4j_url", (req.neo4j_uri).getD ""),
                      ("neo4j_bolt",
                       ((((req.neo4j_uri).getD "").replace "neo4j+s://" "").replace
                         "neo4j://" "")),
                      ("neo4j_type", "aura")]),
             Act.setProg 55] ++
            stage456 req env ipconn.1 ((req.neo4j_uri).getD "")
        else
          [Act.add (mkStep "neo4j-deploy" .MVP_CORE
             "Deploying Neo4j graph database to Cloud Run" 40),
           Act.op (.storeSecret ("neo4j-pass-" ++ req.deployment_id)
             env.neo4j_password_generated)] ++
          match env.store_neo4j with
          | .raised e => [Act.abort e (dbOkOf env.db_fail_update)]
          | .ok _ =>
            [Act.op (.createNeo4jService ("neo4j-" ++ req.deployment_id))] ++
            match env.deploy_neo4j with
            | .raised e => [Act.abort e (dbOkOf env.db_fail_update)]
            | .ok urls =>
              [Act.complete "neo4j-deploy"
                 (some [("neo4j_url", urls.1), ("neo4j_bolt", urls.2),
                        ("neo4j_type", "cloud_run")]),
               Act.setProg 55] ++
              stage456 req env ipconn.1 urls.1

/-- The loop of `complete_step`: mark the first step with the given id
completed and store the details, leaving the rest unchanged. -/
def markCompleted (steps : List Step) (step_id : String)
    (details : Option (List (String × String))) : List Step :=
  match steps with
  | [] => []
  | st :: rest =>
    if st.id == step_id then
      { st with status := .completed, details := details } :: rest
    else
      st :: markCompleted rest step_id details

/-- Event trace of the action list: `add_step` and `complete_step` each end
in `broadcast_update`, which pushes the snapshot carrying the current
overall_progress and success values (threaded as `p` and `suc`); the
successful save writes the RUNNING Instance row and broadcasts (deployment.py
line 359); the handler sets success = False, best-effort writes the FAILED
row with the error text, and broadcasts (line 382). -/
def eventsOf (p : Nat) (suc : Bool) : List Act → List Event
  | [] => []
  | .add st :: rest =>
    .stepAdded st.id st.status :: .broadcast p suc :: eventsOf p suc rest
  | .op e :: rest => e :: eventsOf p suc rest
  | .complete i _ :: rest =>
    .stepCompleted i :: .broadcast p suc :: eventsOf p suc rest
  | .setProg q :: rest => eventsOf q suc rest
  | .finalizeOk _ _ :: rest => eventsOf p true rest
  | .saveOk :: rest =>
    .instanceWrite .running none :: .broadcast p suc :: eventsOf p suc rest
  | .abort m dbOk :: rest =>
    (if dbOk then [Event.instanceWrite .failed (some m)] else []) ++
      (Event.broadcast p false :: eventsOf p false rest)

/-- Steps list of the action list: `add_step` appends, `complete_step` marks
the first matching step completed; nothing else touches the steps, so in
particular `abort` leaves the in-progress step as it stands. -/
def stepsOf (acc : List Step) : List Act → List Step
  | [] => acc
  | .add st :: rest => stepsOf (acc ++ [st]) rest
  | .complete i d :: rest => stepsOf (markCompleted acc i d) rest
  | _ :: rest => stepsOf acc rest

/-- Every value assigned to overall_progress, in order. -/
def historyOf : List Act → List Nat
  | [] => []
  | .setProg p :: rest => p :: historyOf rest
  | _ :: rest => historyOf rest

/-- Final overall_progress, starting from the current value. -/
def progressOf (p : Nat) : List Act → Nat
  | [] => p
  | .setProg q :: rest => progressOf q rest
  | _ :: rest => progressOf p rest

/-- Final success flag: set True by the finalize block, False by the
handler. -/
def successOf (b : Bool) : List Act → Bool
  | [] => b
  | .finalizeOk _ _ :: rest => successOf true rest
  | .abort _ _ :: rest => successOf false rest
  | _ :: rest => successOf b rest

/-- Final endpoints map. -/
def endpointsOf (o : Option (List (String × String))) :
    List Act → Option (List (String × String))
  | [] => o
  | .finalizeOk eps _ :: rest => endpointsOf (some eps) rest
  | _ :: rest => endpointsOf o rest

/-- Decision-ledger entries. -/
def decisionsOf : List Act → List String
  | [] => []
  | .finalizeOk _ d :: rest => d :: decisionsOf rest
  | _ :: rest => decisionsOf rest

/-- Final quality score (set to 95 by the finalize block). -/
def qualityOf (q : Nat) : List Act → Nat
  | [] => q
  | .finalizeOk _ _ :: rest => qualityOf 95 rest
  | _ :: rest => qualityOf q rest

/-- Durable Instance record: final status, deployment_error column, and the
status transitions committed.  The record starts as CREATING (written by
`start_deployment`); the successful save moves it to RUNNING; the handler
moves it to FAILED with the error text when its own commit succeeds, and
leaves the record untouched otherwise. -/
def instanceOf (cur : InstanceStatus) (err : Option String) :
    List Act →
      InstanceStatus × Option String × List (InstanceStatus × InstanceStatus)
  | [] => (cur, err, [])
  | .saveOk :: rest =>
    let t := instanceOf .running err rest
    (t.1, t.2.1, (cur, .running) :: t.2.2)
  | .abort m dbOk :: rest =>
    if dbOk then
      let t := instanceOf .failed (some m) rest
      (t.1, t.2.1, (cur, .failed) :: t.2.2)
    else instanceOf cur err rest
  | _ :: rest => instanceOf cur err rest

/-- State of one finished run: the in-memory DeploymentStatus, the event
trace, the durable Instance record's status and error column, the Instance
status transitions performed, and every value written to overall_progress. -/
structure RunState where
  status : DeploymentStatus
  events : List Event
  instance_status : InstanceStatus
  deployment_error : Option String
  instance_transitions : List (InstanceStatus × InstanceStatus)
  progress_history : List Nat
deriving DecidableEq, Repr

/-- Shallow embedding of `execute_deployment`: run the action list of the
environment and collect every component of the final state.  The initial
DeploymentStatus registered by `start_deployment` has progress 0, phase
DISCOVERY, quality 0, no steps, no endpoints, success False;
`current_phase` is never reassigned anywhere in the source. -/
def executeDeployment (req : DeploymentRequest) (env : Env) : RunState :=
  let prog := program req env
  let inst := instanceOf .creating none prog
  { status :=
      { deployment_id := req.deployment_id
        overall_progress := progressOf 0 prog
        current_phase := .DISCOVERY
        quality_score := qualityOf 0 prog
        steps := stepsOf [] prog
        endpoints := endpointsOf none prog
        success := successOf false prog
        decisions_made := decisionsOf prog }
    events := eventsOf 0 false prog
    instance_status := inst.1
    deployment_error := inst.2.1
    instance_transitions := inst.2.2
    progress_history := 0 :: historyOf prog }

/-!
Health validator: `_validate_deployment` in memmachine_deployer.py
(lines 516-541).  The loop runs `for attempt in range(10)`; each attempt does
a GET on the health path with a 30-second per-attempt timeout.  A response
with status code exactly 200 returns immediately; any other response falls
through to the next attempt with no sleep; a raised network error is caught,
logged, and followed by `asyncio.sleep(30)`.  After the loop the function logs
a warning ("Health check timed out but deployment may still succeed") and
returns normally, so the caller proceeds as on success.
-/

/-- Outcome of one health-probe attempt. -/
inductive AttemptOutcome where
  | response (code : Nat)
  | network_error (msg : String)
deriving DecidableEq, Repr

/-- How `_validate_deployment` comes back to its caller.  The source has no
failing return and raises nothing, so this type has no failure constructor:
exhausting the attempt budget yields `lenient_success`. -/
inductive ValidationOutcome where
  | passed (attempt : Nat)
  | lenient_success
deriving DecidableEq, Repr

/-- Application Settings from backend/app/core/config.py, field for field
(the API route-prefix constant and the secret-loading helpers are omitted).
No field of the configuration concerns health-check leniency. -/
structure Settings where
  APP_NAME : String
  APP_VERSION : String
  DEBUG : Bool
  ENVIRONMENT : String
  GCP_PROJECT_ID : String
  GCP_REGION : String
  DB_HOST : String
  DB_NAME : String
  DB_USER : String
  DB_PASSWORD : Option String
  CLOUD_SQL_CONNECTION_NAME : String
  USE_CLOUD_SQL_CONNECTOR : Bool
  FIREBASE_PROJECT_ID : String
  FIREBASE_CREDENTIALS_PATH : Option String
  CORS_ORIGINS : List String
  SECRET_KEY : Option String
  ALGORITHM : String
  ACCESS_TOKEN_EXPIRE_MINUTES : Nat
  PORT : Nat
  LOG_LEVEL : String
deriving DecidableEq, Repr

/-- The default Settings values of config.py. -/
def defaultSettings : Settings :=
  { APP_NAME := "MemCloud API"
    APP_VERSION := "1.0.0"
    DEBUG := false
    ENVIRONMENT := "production"
    GCP_PROJECT_ID := "memmachine-cloud"
    GCP_REGION := "us-central1"
    DB_HOST := "/cloudsql/memmachine-cloud:us-central1:memmachine-db"
    DB_NAME := "memmachine"
    DB_USER := "postgres"
    DB_PASSWORD := none
    CLOUD_SQL_CONNECTION_NAME := "memmachine-cloud:us-central1:memmachine-db"
    USE_CLOUD_SQL_CONNECTOR := true
    FIREBASE_PROJECT_ID := "memmachine-cloud"
    FIREBASE_CREDENTIALS_PATH := none
    CORS_ORIGINS := ["http://localhost:3000", "http://localhost:3001",
      "http://localhost:8000",
      "https://memcloud-frontend-576223366889.us-central1.run.app",
      "https://memcloud-api-576223366889.us-central1.run.app", "*"]
    SECRET_KEY := none
    ALGORITHM := "HS256"
    ACCESS_TOKEN_EXPIRE_MINUTES := 30
    PORT := 8080
    LOG_LEVEL := "INFO" }

/-- Whether an attempt outcome is a response with status code exactly 200
(what the source's `if response.status_code == 200` accepts). -/
def is200 : AttemptOutcome → Bool
  | .response code => code == 200
  | .network_error _ => false

/-- The retry loop of `_validate_deployment`.  `sleeps` counts the 30-second
`asyncio.sleep(30)` calls, which the source reaches only from the exception
handler for network errors: a non-200 response retries with no delay. -/
def validateLoop (attempts : Nat → AttemptOutcome) (attempt fuel sleeps : Nat) :
    ValidationOutcome × Nat :=
  match fuel with
  | 0 => (.lenient_success, sleeps)
  | fuel' + 1 =>
    match attempts attempt with
    | .response code =>
      if code == 200 then (.passed attempt, sleeps)
      else validateLoop attempts (attempt + 1) fuel' sleeps
    | .network_error _ => validateLoop attempts (attempt + 1) fuel' (sleeps + 1)

/-- `_validate_deployment(memmachine_url)`.  The settings argument reflects
that the application configuration is in scope at the call site; the source
consults no configuration anywhere in the function, which the theorems below
make explicit. -/
def validateDeployment (s : Settings) (attempts : Nat → AttemptOutcome) :
    ValidationOutcome × Nat :=
  validateLoop attempts 0 10 0

/-!
Rollback and the delete helpers of memmachine_deployer.py.

The control plane is modelled by the list of existing resource names of each
kind: a control-plane delete succeeds exactly when the resource exists, and
reports a not-found error otherwise.  Each `_delete_*` helper in the source
wraps its call in `try/except` and re-raises every failure after logging, so
the embedding propagates the error unchanged.
-/

/-- `_rollback_deployment` (memmachine_deployer.py lines 543-552): the body is
a warning log, three comments, a TODO, and `pass`.  It deletes nothing and
records nothing, so its trace of delete calls is empty. -/
def rollbackDeployment (_instance_id : String) : List Event := []

/-- `_delete_cloud_run_service`: on success returns the remaining services; on
any control-plane failure (including the resource being absent) logs and
re-raises. -/
def deleteCloudRunService (services : List String) (service_name : String) :
    Except String (List String) :=
  if services.contains service_name then .ok (services.erase service_name)
  else .error ("cloud_run.deletion.failed: " ++ service_name ++ " was not found")

/-- `_delete_cloud_sql`: same shape; an HttpError (such as instance not found)
is logged and re-raised. -/
def deleteCloudSqlInstance (instances : List String) (instance_name : String) :
    Except String (List String) :=
  if instances.contains instance_name then .ok (instances.erase instance_name)
  else .error ("cloud_sql.deletion.failed: " ++ instance_name ++ " was not found")

/-- `_delete_secret`: same shape; every failure is logged and re-raised. -/
def deleteSecret (secrets : List String) (secret_name : String) :
    Except String (List String) :=
  if secrets.contains secret_name then .ok (secrets.erase secret_name)
  else .error ("secret.deletion.failed: " ++ secret_name ++ " was not found")

/-!
`deploy_complete_stack` (memmachine_deployer.py lines 51-170), the pipeline
used by the instances /deploy endpoint.  Line 82 rebinds the local name
`neo4j_password` to a freshly generated token before the external-coordinates
check on line 103, so the caller-supplied graph-database password is
unreachable from that point on: the truthiness check reads the generated
token, and the "Store Aura password" call stores the generated token.
-/

/-- Outcomes of the external calls made by `deploy_complete_stack`. -/
structure StackEnv where
  instance_id : String
  postgres_password : String
  neo4j_password_generated : String
  store_openai : CallResult Unit
  store_postgres : CallResult Unit
  store_neo4j : CallResult Unit
  store_aura : CallResult Unit
  deploy_cloud_sql : CallResult (String × String)
  deploy_neo4j : CallResult (String × String)
  deploy_memmachine : CallResult String
deriving DecidableEq, Repr

/-- Shallow embedding of `deploy_complete_stack`; returns the MemMachine URL
(the Instance record construction around it is not further modelled) together
with the trace of control-plane calls.  On failure the except block runs
`_rollback_deployment` and raises DeploymentError. -/
def deployCompleteStack (openai_api_key : String)
    (neo4j_uri neo4j_user _neo4j_password : Option String) (env : StackEnv) :
    Except String String × List Event :=
  let iid := env.instance_id
  let neo4j_password_local := env.neo4j_password_generated
  let fail := fun (tr : List Event) (e : String) =>
    (Except.error ("Deployment failed: " ++ e), tr ++ rollbackDeployment iid)
  let tr := [Event.storeSecret ("openai-key-" ++ iid) openai_api_key]
  match env.store_openai with
  | .raised e => fail tr e
  | .ok _ =>
  let tr := tr ++ [Event.storeSecret ("postgres-pass-" ++ iid) env.postgres_password]
  match env.store_postgres with
  | .raised e => fail tr e
  | .ok _ =>
  let tr := tr ++ [Event.storeSecret ("neo4j-pass-" ++ iid) neo4j_password_local]
  match env.store_neo4j with
  | .raised e => fail tr e
  | .ok _ =>
  let tr := tr ++ [Event.createCloudSql ("memmachine-" ++ iid)]
  match env.deploy_cloud_sql with
  | .raised e => fail tr e
  | .ok _ =>
  if truthy neo4j_uri && truthy neo4j_user && !(neo4j_password_local == "") then
    let tr := tr ++
      [Event.storeSecret ("neo4j-aura-pass-" ++ iid) neo4j_password_local]
    match env.store_aura with
    | .raised e => fail tr e
    | .ok _ =>
    let tr := tr ++ [Event.createMemmachineService ("memmachine-" ++ iid)]
    match env.deploy_memmachine with
    | .raised e => fail tr e
    | .ok url =>
    (.ok url, tr ++ [Event.healthCheck])
  else
    let tr := tr ++ [Event.createNeo4jService ("neo4j-" ++ iid)]
    match env.deploy_neo4j with
    | .raised e => fail tr e
    | .ok _ =>
    let tr := tr ++ [Event.createMemmachineService ("memmachine-" ++ iid)]
    match env.deploy_memmachine with
    | .raised e => fail tr e
    | .ok url =>
    (.ok url, tr ++ [Event.healthCheck])

/-!
API layer (instances.py and the status endpoint of deployment.py).
-/

/-- An HTTP response as produced by raising HTTPException or returning. -/
structure HttpReply where
  status_code : Nat
  detail : String
deriving DecidableEq, Repr

/-- `GET /deployment/{id}/status` (deployment.py lines 442-448): 404 when the
deployment id is not in the registry. -/
def getDeploymentStatusEndpoint (registered : Bool) : HttpReply :=
  if registered then { status_code := 200, detail := "" }
  else { status_code := 404, detail := "Deployment not found" }

/-- The 404 raised by `get_instance`, `delete_instance`, `start_instance` and
`stop_instance` when the lookup by id and user returns no row. -/
def instanceNotFoundReply (instance_id : String) : HttpReply :=
  { status_code := 404,
    detail := "Instance " ++ instance_id ++ " not found or not owned by user" }

/-- `GET /instances/{id}` (instances.py lines 221-259). -/
def getInstanceEndpoint (instance_id : String) (found : Bool) : HttpReply :=
  if found then { status_code := 200, detail := "" }
  else instanceNotFoundReply instance_id

/-- How the body of the POST /instances/deploy try block comes out when the
deployer is importable: the stack deploys, raises DeploymentError, or raises
some other exception. -/
inductive StackOutcome where
  | deployed (url : String)
  | deployment_error (msg : String)
  | unexpected_error (msg : String)
deriving DecidableEq, Repr

/-- `deploy_memmachine_instance` (instances.py lines 79-159).  When the
deployer import failed, `DeploymentError` is bound to `Exception`
(instances.py line 22), so the `except DeploymentError` clause catches every
exception — including the `HTTPException(503)` raised inside the try block
for the unavailable-deployer case — and converts it into a 500 whose detail
embeds `str(e)`; `str` of a starlette HTTPException is
"{status_code}: {detail}".  When the import succeeded, DeploymentError is the
real class: a DeploymentError becomes a 500 with the error text embedded, and
any other exception becomes the redacted 500. -/
def deployMemmachineInstance (deployer_available : Bool)
    (outcome : StackOutcome) : HttpReply :=
  if !deployer_available then
    { status_code := 500,
      detail := "Deployment failed: 503: Deployment functionality not available in development mode. Deploy to GCP to enable." }
  else
    match outcome with
    | .deployed url =>
      { status_code := 201,
        detail := "MemMachine deployed successfully! Access at: " ++ url }
    | .deployment_error m =>
      { status_code := 500, detail := "Deployment failed: " ++ m }
    | .unexpected_error _ =>
      { status_code := 500,
        detail := "An unexpected error occurred during deployment" }

/-- The columns of the Instance row read by `delete_instance`. -/
structure InstanceRecord where
  status : InstanceStatus
  cloud_run_service_name : Option String
  neo4j_service_name : Option String
  postgres_instance_name : Option String
  openai_secret_name : Option String
  postgres_secret_name : Option String
  neo4j_secret_name : Option String
deriving DecidableEq, Repr

/-- Outcomes of the external calls made by `delete_instance`.  `deployer_init`
is the `MemMachineDeployer()` construction inside the try block; the six
delete outcomes are each caught individually; `final_commit` is the commit
that persists the DELETED status; `fail_commit` is the best-effort commit in
the outer exception handler. -/
structure DeleteEnv where
  deployer_available : Bool
  deployer_init : CallResult Unit
  delete_memmachine : CallResult Unit
  delete_neo4j : CallResult Unit
  delete_sql : CallResult Unit
  delete_secret_openai : CallResult Unit
  delete_secret_postgres : CallResult Unit
  delete_secret_neo4j : CallResult Unit
  final_commit : CallResult Unit
  fail_commit : CallResult Unit
deriving DecidableEq, Repr

/-- Result of `delete_instance`: HTTP reply, durable status transitions
committed, and the per-resource bookkeeping lists. -/
structure DeleteOutcome where
  reply : HttpReply
  transitions : List (InstanceStatus × InstanceStatus)
  deleted_resources : List String
  deletion_errors : List String
deriving DecidableEq, Repr

/-- One guarded resource deletion of `delete_instance`: skipped when the
column is NULL; a success appends to deleted_resources; a caught failure
appends to deletion_errors. -/
def cleanupOne (res : Option String) (outcome : CallResult Unit)
    (ok_label err_label : String) (acc : List String × List String) :
    List String × List String :=
  match res with
  | none => acc
  | some name =>
    match outcome with
    | .ok _ => (acc.1 ++ [ok_label ++ ": " ++ name], acc.2)
    | .raised e => (acc.1, acc.2 ++ [err_label ++ ": " ++ e])

/-- The resource-deletion section of `delete_instance` (lines 316-354): each
delete is attempted and its failure caught and recorded; the labels follow
the source's message strings. -/
def resourceCleanup (inst : InstanceRecord) (env : DeleteEnv) :
    List String × List String :=
  let acc := cleanupOne inst.cloud_run_service_name env.delete_memmachine
    "Cloud Run service" "MemMachine service" ([], [])
  let acc := cleanupOne inst.neo4j_service_name env.delete_neo4j
    "Neo4j service" "Neo4j service" acc
  let acc := cleanupOne inst.postgres_instance_name env.delete_sql
    "PostgreSQL instance" "PostgreSQL instance" acc
  let acc := cleanupOne inst.openai_secret_name env.delete_secret_openai
    "Secret" "Secret" acc
  let acc := cleanupOne inst.postgres_secret_name env.delete_secret_postgres
    "Secret" "Secret" acc
  cleanupOne inst.neo4j_secret_name env.delete_secret_neo4j
    "Secret" "Secret" acc

/-- The outer exception handler of `delete_instance` (lines 380-399): try to
set the status to FAILED (a transition from DELETING, which was already
committed), swallow a failure of that commit, and return a 500 whose detail
embeds the error text. -/
def deleteExceptPath (from_status : InstanceStatus) (e : String)
    (env : DeleteEnv) : DeleteOutcome :=
  let base : List (InstanceStatus × InstanceStatus) :=
    [(from_status, .deleting)]
  { reply := { status_code := 500,
               detail := "Failed to delete instance: " ++ e }
    transitions :=
      match env.fail_commit with
      | .ok _ => base ++ [(.deleting, .failed)]
      | .raised _ => base
    deleted_resources := []
    deletion_errors := [] }

/-- `delete_instance` (instances.py lines 262-399).  The DELETING status is
committed before any resource deletion; individual delete failures are caught
and recorded; the soft-delete commit always runs afterwards; an exception
from the deployer construction or from that commit reaches the outer handler,
which moves the record to FAILED. -/
def deleteInstance (found : Option InstanceRecord) (env : DeleteEnv) :
    DeleteOutcome :=
  match found with
  | none =>
    { reply := instanceNotFoundReply "unknown", transitions := [],
      deleted_resources := [], deletion_errors := [] }
  | some inst =>
    if inst.status == .deleted then
      { reply := { status_code := 400, detail := "Instance is already deleted" },
        transitions := [], deleted_resources := [], deletion_errors := [] }
    else
      match (if env.deployer_available then env.deployer_init else .ok ()) with
      | .raised e => deleteExceptPath inst.status e env
      | .ok _ =>
        let cleanup :=
          if env.deployer_available then resourceCleanup inst env else ([], [])
        match env.final_commit with
        | .raised e => deleteExceptPath inst.status e env
        | .ok _ =>
          { reply := { status_code := 200, detail := "" }
            transitions := [(inst.status, .deleting), (.deleting, .deleted)]
            deleted_resources := cleanup.1
            deletion_errors := cleanup.2 }

/-- Outcomes of the external calls made by `start_instance` / `stop_instance`:
the min-instances update (performed only when the deployer is available) and
the status commit. -/
structure ScaleEnv where
  deployer_available : Bool
  update_min_instances : CallResult Unit
  commit : CallResult Unit
deriving DecidableEq, Repr

/-- `start_instance` (instances.py lines 402-461): 404 when not found, 400
unless the status is STOPPED, otherwise scale up and commit RUNNING; any
exception becomes a 500 with the error text embedded and no committed status
change. -/
def startInstance (found : Option InstanceStatus) (env : ScaleEnv) :
    HttpReply × List (InstanceStatus × InstanceStatus) :=
  match found with
  | none => (instanceNotFoundReply "unknown", [])
  | some st =>
    if st != .stopped then
      ({ status_code := 400,
         detail := "Instance must be in STOPPED state to start" }, [])
    else
      match (if env.deployer_available then env.update_min_instances
             else .ok ()) with
      | .raised e =>
        ({ status_code := 500, detail := "Failed to start instance: " ++ e }, [])
      | .ok _ =>
        match env.commit with
        | .raised e =>
          ({ status_code := 500,
             detail := "Failed to start instance: " ++ e }, [])
        | .ok _ => ({ status_code := 200, detail := "" },
                    [(.stopped, .running)])

/-- `stop_instance` (instances.py lines 464-525): the mirror image, RUNNING to
STOPPED. -/
def stopInstance (found : Option InstanceStatus) (env : ScaleEnv) :
    HttpReply × List (InstanceStatus × InstanceStatus) :=
  match found with
  | none => (instanceNotFoundReply "unknown", [])
  | some st =>
    if st != .running then
      ({ status_code := 400,
         detail := "Instance must be in RUNNING state to stop" }, [])
    else
      match (if env.deployer_available then env.update_min_instances
             else .ok ()) with
      | .raised e =>
        ({ status_code := 500, detail := "Failed to stop instance: " ++ e }, [])
      | .ok _ =>
        match env.commit with
        | .raised e =>
          ({ status_code := 500,
             detail := "Failed to stop instance: " ++ e }, [])
        | .ok _ => ({ status_code := 200, detail := "" },
                    [(.running, .stopped)])

/-!
Decidable run invariants, used by the theorems about every possible run of
`execute_deployment`.
-/

/-- Events that perform a stage's external operation. -/
def isOperation : Event → Bool
  | .storeSecret _ _ => true
  | .createCloudSql _ => true
  | .createNeo4jService _ => true
  | .createMemmachineService _ => true
  | .healthCheck => true
  | _ => false

/-- Delete calls (of any resource kind) in a trace. -/
def isDeleteCall : Event → Bool
  | .deleteCloudRunService _ => true
  | .deleteCloudSql _ => true
  | .deleteSecret _ => true
  | _ => false

/-- Graph-database create calls in a trace. -/
def isNeo4jCreate : Event → Bool
  | .createNeo4jService _ => true
  | _ => false

/-- Trace discipline of the step protocol: every appended step is appended
with status in_progress and immediately followed by a broadcast; every
step-completion names a step that is currently in progress and is immediately
followed by a broadcast; every external operation happens while some step is
in progress. -/
def traceOkFrom (openSteps : List String) : List Event → Bool
  | [] => true
  | .stepAdded i st :: rest =>
    match rest with
    | .broadcast _ _ :: rest2 =>
      (st == .in_progress) && traceOkFrom (openSteps ++ [i]) rest2
    | _ => false
  | .stepCompleted i :: rest =>
    match rest with
    | .broadcast _ _ :: rest2 =>
      openSteps.contains i && traceOkFrom (openSteps.erase i) rest2
    | _ => false
  | e :: rest =>
    if isOperation e then !openSteps.isEmpty && traceOkFrom openSteps rest
    else traceOkFrom openSteps rest

/-- A list of naturals is sorted in non-decreasing order. -/
def nondecreasing : List Nat → Bool
  | [] => true
  | [_] => true
  | a :: b :: rest => Nat.ble a b && nondecreasing (b :: rest)

/-- A step as the pipeline leaves it: never failed, never pending again,
and no error text recorded on it. -/
def stepNeverFailed (st : Step) : Bool :=
  (st.error == none) &&
  (st.status == .in_progress || st.status == .completed)

/-- The Instance status transitions the specification allows:
creating to running or failed; running to stopped; stopped to running;
any non-deleted state to deleting; deleting to deleted. -/
def allowedTransition : InstanceStatus → InstanceStatus → Bool
  | .creating, .running => true
  | .creating, .failed => true
  | .running, .stopped => true
  | .stopped, .running => true
  | s, .deleting => !(s == .deleted)
  | .deleting, .deleted => true
  | _, _ => false

/-- All invariants of a finished run that hold on every environment: the step
trace discipline, no step ever marked failed, monotone progress history, a
successful run has progress 100 with every step completed and the Instance
running, and every Instance transition performed is one the specification
allows. -/
def runChecks (s : RunState) : Bool :=
  traceOkFrom [] s.events &&
  s.status.steps.all stepNeverFailed &&
  nondecreasing s.progress_history &&
  (!s.status.success ||
    ((s.status.overall_progress == 100) &&
     s.status.steps.all (fun st => st.status == .completed) &&
     (s.instance_status == .running))) &&
  s.instance_transitions.all (fun p => allowedTransition p.1 p.2)

/-!
Concrete fixtures used by counterexamples and witnesses.
-/

/-- A request with a valid credential and no external graph-database
coordinates. -/
def reqPlain : DeploymentRequest :=
  { deployment_id := "d1", name := "n", openai_api_key := "sk-x",
    user_id := "u1", neo4j_uri := none, neo4j_user := none,
    neo4j_password := none }

/-- The same request with caller-supplied Neo4j Aura coordinates. -/
def reqAura : DeploymentRequest :=
  { deployment_id := "d1", name := "n", openai_api_key := "sk-x",
    user_id := "u1",
    neo4j_uri := some "neo4j+s://abc.databases.neo4j.io",
    neo4j_user := some "neo4j", neo4j_password := some "aura-secret-pw" }

/-- An environment in which every external call succeeds. -/
def envAllOk : Env :=
  { store_openai := .ok (), postgres_password := "pgpw",
    store_postgres := .ok (),
    deploy_cloud_sql := .ok ("1.2.3.4", "proj:reg:memmachine-d1"),
    neo4j_password_generated := "njpw", store_neo4j := .ok (),
    deploy_neo4j := .ok ("https://neo4j-d1.run.app", "neo4j-d1.run.app"),
    deploy_memmachine := .ok "https://mm-d1.run.app",
    db_save := .ok (), db_fail_update := .ok () }

/-- All calls succeed except the Cloud SQL creation, which raises. -/
def envSqlFail : Env := { envAllOk with deploy_cloud_sql := .raised "sql boom" }

/-- All calls succeed except the final Instance save, which raises. -/
def envDbSaveFail : Env := { envAllOk with db_save := .raised "db down" }

/-- A deploy_complete_stack environment with every call succeeding; the
generated graph-database password is "gen-token". -/
def stackEnvOk : StackEnv :=
  { instance_id := "i1", postgres_password := "pg-token",
    neo4j_password_generated := "gen-token",
    store_openai := .ok (), store_postgres := .ok (), store_neo4j := .ok (),
    store_aura := .ok (),
    deploy_cloud_sql := .ok ("1.2.3.4", "proj:reg:memmachine-i1"),
    deploy_neo4j := .ok ("https://neo4j-i1.run.app", "neo4j-i1.run.app"),
    deploy_memmachine := .ok "https://mm-i1.run.app" }

/-- An Instance row in RUNNING state with every resource column set. -/
def recRunning : InstanceRecord :=
  { status := .running,
    cloud_run_service_name := some "memmachine-d1",
    neo4j_service_name := some "neo4j-d1",
    postgres_instance_name := some "memmachine-d1",
    openai_secret_name := some "openai-key-d1",
    postgres_secret_name := some "postgres-pass-d1",
    neo4j_secret_name := some "neo4j-pass-d1" }

/-- delete_instance environment: every delete succeeds but the soft-delete
commit raises; the handler's own commit succeeds. -/
def delEnvCommitFail : DeleteEnv :=
  { deployer_available := true, deployer_init := .ok (),
    delete_memmachine := .ok (), delete_neo4j := .ok (), delete_sql := .ok (),
    delete_secret_openai := .ok (), delete_secret_postgres := .ok (),
    delete_secret_neo4j := .ok (), final_commit := .raised "db down",
    fail_commit := .ok () }

/-- delete_instance environment: every resource delete raises (as on absent
resources), everything else succeeds. -/
def delEnvAllAbsent : DeleteEnv :=
  { deployer_available := true, deployer_init := .ok (),
    delete_memmachine := .raised "404 was not found",
    delete_neo4j := .raised "404 was not found",
    delete_sql := .raised "404 was not found",
    delete_secret_openai := .raised "404 was not found",
    delete_secret_postgres := .raised "404 was not found",
    delete_secret_neo4j := .raised "404 was not found",
    final_commit := .ok (), fail_commit := .ok () }

/-- Settings with every field different from the defaults (a second
configuration point, development mode). -/
def altSettings : Settings :=
  { APP_NAME := "Alt", APP_VERSION := "0.0.1", DEBUG := true,
    ENVIRONMENT := "development", GCP_PROJECT_ID := "p", GCP_REGION := "r",
    DB_HOST := "h", DB_NAME := "db", DB_USER := "u", DB_PASSWORD := some "pw",
    CLOUD_SQL_CONNECTION_NAME := "c", USE_CLOUD_SQL_CONNECTOR := false,
    FIREBASE_PROJECT_ID := "fp", FIREBASE_CREDENTIALS_PATH := some "path",
    CORS_ORIGINS := [], SECRET_KEY := some "sk", ALGORITHM := "none",
    ACCESS_TOKEN_EXPIRE_MINUTES := 5, PORT := 1, LOG_LEVEL := "DEBUG" }

/-- Health-probe behaviour where every attempt yields HTTP 503. -/
def alwaysServiceUnavailable : Nat → AttemptOutcome := fun _ => .response 503

/-- Health-probe behaviour where every attempt yields HTTP 200. -/
def always200 : Nat → AttemptOutcome := fun _ => .response 200

/-- Is an attempt outcome a network error (the branch that sleeps 30s)? -/
def isNet : AttemptOutcome → Bool
  | .network_error _ => true
  | .response _ => false

/-- The transition set extended with the one extra transition the code
performs: deleting to failed in the delete endpoint's error handler. -/
def allowedWithDeleteFailure (p : InstanceStatus × InstanceStatus) : Bool :=
  allowedTransition p.1 p.2 || (p.1 == .deleting && p.2 == .failed)

/-- Exhaustive case analysis over every environment: every run of the
pipeline satisfies `runChecks`. -/
theorem executeDeployment_runChecks (req : DeploymentRequest) (env : Env) :
    runChecks (executeDeployment req env) = true := by
  obtain ⟨so, pp, sp, dcs, npg, sn, dn, dm, dbs, dbf⟩ := env
  delta executeDeployment program
  cases hb : (truthy req.neo4j_uri && truthy req.neo4j_user &&
      truthy req.neo4j_password) <;>
    cases so <;> cases sp <;> cases dcs <;> cases sn <;> cases dn <;>
    cases dm <;> cases dbs <;> cases dbf <;> rfl

/-- C1: on the run where Cloud SQL creation raises after two secrets were
stored, the Instance is marked failed with the error text, but no delete of
any resource kind is ever attempted and nothing about removals is recorded:
the exception handler of execute_deployment performs no rollback call, and
_rollback_deployment itself is an empty stub.  This contradicts the claimed
best-effort rollback (and the deployer docstring advertising rollback on
failure). -/
theorem deployment_failure_performs_no_rollback_deletes :
    (executeDeployment reqPlain envSqlFail).instance_status = .failed ∧
    (executeDeployment reqPlain envSqlFail).deployment_error =
      some "sql boom" ∧
    ((executeDeployment reqPlain envSqlFail).events.filter isDeleteCall)
      = [] ∧
    ((executeDeployment reqPlain envSqlFail).events.filter
        (fun e => match e with | .storeSecret _ _ => true | _ => false)).length
      = 2 ∧
    rollbackDeployment "d1" = [] :=
  ⟨rfl, rfl, rfl, rfl, rfl⟩

/-- C3: publishing to the connection list [dead, live] — where the send to
`dead` raises — delivers the snapshot to nobody: removing `dead` during
iteration makes the Python list iterator skip `live`, which stays registered
but never receives that snapshot.  This refutes the claim that every other
channel registered at publish time still receives the snapshot. -/
theorem broadcast_skips_live_channel_after_failed_send :
    broadcastUpdate
        [{ id := "dead", failing := true }, { id := "live", failing := false }]
      = ([], [{ id := "live", failing := false }]) := by
  rfl

/-- C4 counterexample: on the run where Cloud SQL creation raises, the
"postgres-create" step is left with status in_progress and no error — the
exception handler never marks a step failed — while the run itself ends
unsuccessfully.  This refutes the claim that the orchestrator marks the
failing stage's Step `failed` with the error. -/
theorem failed_stage_leaves_step_in_progress :
    ((executeDeployment reqPlain envSqlFail).status.steps.map
        (fun st => (st.id, st.status, st.error)))
      = [("secret-openai", StepStatus.completed, none),
         ("postgres-create", StepStatus.in_progress, none)] ∧
    (executeDeployment reqPlain envSqlFail).status.success = false :=
  ⟨rfl, rfl⟩

/-- C5 counterexample: deleting a RUNNING instance whose soft-delete commit
raises moves the durable record creating the transitions running→deleting and
then deleting→failed; the latter is outside the specified transition set. -/
theorem delete_failure_moves_deleting_to_failed :
    (deleteInstance (some recRunning) delEnvCommitFail).transitions
      = [(InstanceStatus.running, InstanceStatus.deleting),
         (InstanceStatus.deleting, InstanceStatus.failed)] ∧
    allowedTransition .deleting .failed = false :=
  ⟨rfl, rfl⟩

/-- C6 counterexample: on the fully successful run with a valid credential
and no external graph-database coordinates, all six steps do complete in
order, success is true and the Instance ends RUNNING — but the endpoint map
has four keys (memmachine_api, postgres, neo4j, playground), not three. -/
theorem happy_path_endpoint_map_has_four_keys :
    ((executeDeployment reqPlain envAllOk).status.steps.map
        (fun st => (st.id, st.status)))
      = [("secret-openai", StepStatus.completed),
         ("postgres-create", StepStatus.completed),
         ("neo4j-deploy", StepStatus.completed),
         ("memmachine-deploy", StepStatus.completed),
         ("health-check", StepStatus.completed),
         ("finalize", StepStatus.completed)] ∧
    (executeDeployment reqPlain envAllOk).status.success = true ∧
    (executeDeployment reqPlain envAllOk).instance_status = .running ∧
    (((executeDeployment reqPlain envAllOk).status.endpoints.getD []).map
        Prod.fst)
      = ["memmachine_api", "postgres", "neo4j", "playground"] ∧
    ¬ ((executeDeployment reqPlain envAllOk).status.endpoints.getD
        []).length = 3 :=
  ⟨rfl, rfl, rfl, rfl, by decide⟩

/-- C7 counterexample: a deploy request made while the deployer is
unavailable answers 500, not the claimed 503: the HTTPException(503) raised
inside the try block is caught by the `except DeploymentError` clause, since
DeploymentError is bound to Exception in that mode, and re-raised as a 500
whose detail embeds the original 503 message. -/
theorem unavailable_deployer_returns_500_not_503 :
    (deployMemmachineInstance false (.deployed "https://mm")).status_code
      = 500 ∧
    ¬ (deployMemmachineInstance false (.deployed "https://mm")).status_code
      = 503 ∧
    (deployMemmachineInstance false (.deployed "https://mm")).detail
      = "Deployment failed: 503: Deployment functionality not available in development mode. Deploy to GCP to enable." :=
  ⟨rfl, by decide, rfl⟩

/-- C8 counterexample: deleting an already-absent resource of each kind
reports an error, not success: every delete helper logs and re-raises the
control-plane failure instead of treating absence as success. -/
theorem delete_absent_resource_errors :
    deleteSecret [] "openai-key-d1"
      = .error "secret.deletion.failed: openai-key-d1 was not found" ∧
    deleteCloudRunService [] "memmachine-d1"
      = .error "cloud_run.deletion.failed: memmachine-d1 was not found" ∧
    deleteCloudSqlInstance [] "memmachine-d1"
      = .error "cloud_sql.deletion.failed: memmachine-d1 was not found" :=
  ⟨rfl, rfl, rfl⟩

/-- C9: with caller-supplied Aura coordinates, neither pipeline makes a
graph-database create call; the WebSocket pipeline stores the supplied
password under the aura secret name; but deploy_complete_stack stores the
generated token ("gen-token") under both graph-database secret names and the
supplied password ("user-secret") is never stored anywhere — the local
rebinding of neo4j_password to a fresh token on line 82 shadows the
parameter before the check and the store, contradicting the source's own
"Store Aura password in Secret Manager" comment. -/
theorem aura_password_shadowing_stores_generated_secret :
    ((deployCompleteStack "sk-key" (some "neo4j+s://abc.databases.neo4j.io")
          (some "neo4j") (some "user-secret") stackEnvOk).2.filter
        isNeo4jCreate)
      = [] ∧
    ((deployCompleteStack "sk-key" (some "neo4j+s://abc.databases.neo4j.io")
          (some "neo4j") (some "user-secret") stackEnvOk).2.filter
        (fun e => match e with | .storeSecret _ _ => true | _ => false))
      = [.storeSecret "openai-key-i1" "sk-key",
         .storeSecret "postgres-pass-i1" "pg-token",
         .storeSecret "neo4j-pass-i1" "gen-token",
         .storeSecret "neo4j-aura-pass-i1" "gen-token"] ∧
    ((deployCompleteStack "sk-key" (some "neo4j+s://abc.databases.neo4j.io")
          (some "neo4j") (some "user-secret") stackEnvOk).2.all
        (fun e => match e with
          | .storeSecret _ v => !(v == "user-secret")
          | _ => true))
      = true ∧
    ((executeDeployment reqAura envAllOk).events.filter isNeo4jCreate)
      = [] ∧
    ((executeDeployment reqAura envAllOk).events.contains
        (.storeSecret "neo4j-aura-pass-d1" "aura-secret-pw"))
      = true :=
  ⟨rfl, rfl, rfl, rfl, rfl⟩

/-- C4 amended: in every run, every step is appended as in_progress and
immediately followed by a broadcast, every external operation runs while a
step is in progress, every step completion names an in-progress step and is
immediately followed by a broadcast (the trace discipline `traceOkFrom`);
no step is ever marked failed or given an error (a stage that raises leaves
its step in_progress); and on a successful run every step ends completed. -/
theorem step_lifecycle_amended (req : DeploymentRequest) (env : Env) :
    traceOkFrom [] (executeDeployment req env).events = true ∧
    (executeDeployment req env).status.steps.all stepNeverFailed = true ∧
    ((executeDeployment req env).status.success = true →
      (executeDeployment req env).status.steps.all
        (fun st => st.status == .completed) = true) := by
  have h := executeDeployment_runChecks req env
  simp only [runChecks, Bool.and_eq_true] at h
  obtain ⟨⟨⟨⟨h1, h2⟩, h3⟩, h4⟩, h5⟩ := h
  refine ⟨h1, h2, fun hs => ?_⟩
  rw [hs] at h4
  simp only [Bool.not_true, Bool.false_or, Bool.and_eq_true] at h4
  exact h4.1.2

/-- Closed witness for `step_lifecycle_amended` at the all-success
environment. -/
theorem step_lifecycle_amended_witness :
    traceOkFrom [] (executeDeployment reqPlain envAllOk).events = true ∧
    (executeDeployment reqPlain envAllOk).status.steps.all stepNeverFailed
      = true ∧
    ((executeDeployment reqPlain envAllOk).status.success = true →
      (executeDeployment reqPlain envAllOk).status.steps.all
        (fun st => st.status == .completed) = true) :=
  step_lifecycle_amended reqPlain envAllOk

/-- C5 amended: every Instance status transition any modelled operation
commits lies in the specified set extended by exactly one extra transition,
deleting→failed, which the delete endpoint's error handler performs. -/
theorem instance_transitions_amended :
    (∀ (req : DeploymentRequest) (env : Env),
      (executeDeployment req env).instance_transitions.all
        allowedWithDeleteFailure = true) ∧
    (∀ (found : Option InstanceRecord) (denv : DeleteEnv),
      (deleteInstance found denv).transitions.all
        allowedWithDeleteFailure = true) ∧
    (∀ (found : Option InstanceStatus) (senv : ScaleEnv),
      (startInstance found senv).2.all allowedWithDeleteFailure = true) ∧
    (∀ (found : Option InstanceStatus) (senv : ScaleEnv),
      (stopInstance found senv).2.all allowedWithDeleteFailure = true) := by
  refine ⟨fun req env => ?_, fun found denv => ?_, fun found senv => ?_,
    fun found senv => ?_⟩
  · have h := executeDeployment_runChecks req env
    simp only [runChecks, Bool.and_eq_true] at h
    obtain ⟨⟨⟨⟨h1, h2⟩, h3⟩, h4⟩, h5⟩ := h
    rw [List.all_eq_true] at h5 ⊢
    intro p hp
    have := h5 p hp
    simp only [allowedWithDeleteFailure, this, Bool.true_or]
  · obtain ⟨av, ini, d1, d2, d3, d4, d5, d6, fc, xc⟩ := denv
    cases found with
    | none => rfl
    | some rec =>
      obtain ⟨st, r1, r2, r3, r4, r5, r6⟩ := rec
      cases st <;> cases av <;> cases ini <;> cases fc <;> cases xc <;> rfl
  · obtain ⟨av, upd, com⟩ := senv
    cases found with
    | none => rfl
    | some st => cases st <;> cases av <;> cases upd <;> cases com <;> rfl
  · obtain ⟨av, upd, com⟩ := senv
    cases found with
    | none => rfl
    | some st => cases st <;> cases av <;> cases upd <;> cases com <;> rfl

/-- C10 counterexample: on the run where everything succeeds except the
final Instance save, overall_progress has already reached 100 yet the run
ends with success = false, refuting the "reaches 100 only if success"
direction of the claim. -/
theorem progress_reaches_100_on_failed_save :
    (executeDeployment reqPlain envDbSaveFail).status.overall_progress
      = 100 ∧
    (executeDeployment reqPlain envDbSaveFail).status.success = false ∧
    (executeDeployment reqPlain envDbSaveFail).instance_status = .failed :=
  ⟨rfl, rfl, rfl⟩

/-- C10 amended: in every run the sequence of values written to
overall_progress is non-decreasing, and a run that ends with success = true
ends at progress 100; the converse fails only when the exception arrives
after finalization, during the Instance save (see the counterexample). -/
theorem progress_monotone_amended (req : DeploymentRequest) (env : Env) :
    nondecreasing (executeDeployment req env).progress_history = true ∧
    ((executeDeployment req env).status.success = true →
      (executeDeployment req env).status.overall_progress = 100) := by
  have h := executeDeployment_runChecks req env
  simp only [runChecks, Bool.and_eq_true] at h
  obtain ⟨⟨⟨⟨h1, h2⟩, h3⟩, h4⟩, h5⟩ := h
  refine ⟨h3, fun hs => ?_⟩
  rw [hs] at h4
  simp only [Bool.not_true, Bool.false_or, Bool.and_eq_true] at h4
  exact (by simpa using h4.1.1)

/-- Closed witness for `progress_monotone_amended` on the all-success run. -/
theorem progress_monotone_amended_witness :
    nondecreasing (executeDeployment reqPlain envAllOk).progress_history
      = true ∧
    ((executeDeployment reqPlain envAllOk).status.success = true →
      (executeDeployment reqPlain envAllOk).status.overall_progress = 100) :=
  progress_monotone_amended reqPlain envAllOk

/-- C6 amended: every run with no external graph-database coordinates in
which all external calls succeed completes the six steps in order, reports
success with progress 100, produces the endpoint map with its four keys
(memmachine_api, postgres, neo4j, playground — one more than the claimed
three), and leaves the durable Instance record RUNNING. -/
theorem happy_path_amended (req : DeploymentRequest) (env : Env)
    (ip conn nurl nbolt mmurl : String)
    (hu : req.neo4j_uri = none)
    (h1 : env.store_openai = .ok ())
    (h2 : env.store_postgres = .ok ())
    (h3 : env.deploy_cloud_sql = .ok (ip, conn))
    (h4 : env.store_neo4j = .ok ())
    (h5 : env.deploy_neo4j = .ok (nurl, nbolt))
    (h6 : env.deploy_memmachine = .ok mmurl)
    (h7 : env.db_save = .ok ()) :
    ((executeDeployment req env).status.steps.map
        (fun st => (st.id, st.status)))
      = [("secret-openai", StepStatus.completed),
         ("postgres-create", StepStatus.completed),
         ("neo4j-deploy", StepStatus.completed),
         ("memmachine-deploy", StepStatus.completed),
         ("health-check", StepStatus.completed),
         ("finalize", StepStatus.completed)] ∧
    (executeDeployment req env).status.success = true ∧
    (executeDeployment req env).status.overall_progress = 100 ∧
    (((executeDeployment req env).status.endpoints.getD []).map Prod.fst)
      = ["memmachine_api", "postgres", "neo4j", "playground"] ∧
    ((executeDeployment req env).status.endpoints.getD []).length = 4 ∧
    (executeDeployment req env).instance_status = .running := by
  obtain ⟨did, nm, key, uid, nuri, nuser, npw⟩ := req
  obtain ⟨so, pp, sp, dcs, npg, sn, dn, dm, dbs, dbf⟩ := env
  simp only at h1 h2 h3 h4 h5 h6 h7 hu
  subst h1 h2 h3 h4 h5 h6 h7 hu
  exact ⟨rfl, rfl, rfl, rfl, rfl, rfl⟩

/-- Closed witness for `happy_path_amended` at the concrete all-success
fixture. -/
theorem happy_path_amended_witness :
    ((executeDeployment reqPlain envAllOk).status.steps.map
        (fun st => (st.id, st.status)))
      = [("secret-openai", StepStatus.completed),
         ("postgres-create", StepStatus.completed),
         ("neo4j-deploy", StepStatus.completed),
         ("memmachine-deploy", StepStatus.completed),
         ("health-check", StepStatus.completed),
         ("finalize", StepStatus.completed)] ∧
    (executeDeployment reqPlain envAllOk).status.success = true ∧
    (executeDeployment reqPlain envAllOk).status.overall_progress = 100 ∧
    (((executeDeployment reqPlain envAllOk).status.endpoints.getD []).map
        Prod.fst)
      = ["memmachine_api", "postgres", "neo4j", "playground"] ∧
    ((executeDeployment reqPlain envAllOk).status.endpoints.getD []).length
      = 4 ∧
    (executeDeployment reqPlain envAllOk).instance_status = .running :=
  happy_path_amended reqPlain envAllOk "1.2.3.4" "proj:reg:memmachine-d1"
    "https://neo4j-d1.run.app" "neo4j-d1.run.app" "https://mm-d1.run.app"
    rfl rfl rfl rfl rfl rfl rfl rfl

/-- C7 amended: unknown ids answer 404 on every lookup endpoint; a deploy
request while the deployer is unavailable answers 500 with the 503 message
embedded in the detail (the broad DeploymentError clause, aliased to
Exception in that mode, intercepts the HTTPException); the deploy endpoint
redacts unexpected errors but exposes DeploymentError text, and the delete
endpoint's error handler embeds the underlying error text in its 500. -/
theorem api_error_mapping_amended :
    (getDeploymentStatusEndpoint false).status_code = 404 ∧
    (∀ iid : String, (getInstanceEndpoint iid false).status_code = 404) ∧
    (∀ denv : DeleteEnv, (deleteInstance none denv).reply.status_code = 404) ∧
    (∀ senv : ScaleEnv, (startInstance none senv).1.status_code = 404) ∧
    (∀ senv : ScaleEnv, (stopInstance none senv).1.status_code = 404) ∧
    (∀ o : StackOutcome, deployMemmachineInstance false o =
      { status_code := 500,
        detail := "Deployment failed: 503: Deployment functionality not available in development mode. Deploy to GCP to enable." }) ∧
    (∀ m : String, deployMemmachineInstance true (.unexpected_error m) =
      { status_code := 500,
        detail := "An unexpected error occurred during deployment" }) ∧
    (∀ m : String, deployMemmachineInstance true (.deployment_error m) =
      { status_code := 500, detail := "Deployment failed: " ++ m }) ∧
    (∀ (st : InstanceStatus) (e : String) (denv : DeleteEnv),
      (deleteExceptPath st e denv).reply =
        { status_code := 500, detail := "Failed to delete instance: " ++ e }) :=
  ⟨rfl, fun _ => rfl, fun _ => rfl, fun _ => rfl, fun _ => rfl,
   fun o => by cases o <;> rfl, fun _ => rfl, fun _ => rfl,
   fun _ _ _ => rfl⟩

/-- C8 amended: each delete helper surfaces an error on an absent resource
(absence is not success); idempotent behaviour exists only one level up, in
the delete endpoint, which catches every per-resource failure, records it in
deletion_errors, and still soft-deletes the Instance and answers 200. -/
theorem delete_absent_amended :
    (∀ (store : List String) (nm : String), store.contains nm = false →
      deleteSecret store nm
          = .error ("secret.deletion.failed: " ++ nm ++ " was not found") ∧
        deleteCloudRunService store nm
          = .error ("cloud_run.deletion.failed: " ++ nm ++ " was not found") ∧
        deleteCloudSqlInstance store nm
          = .error ("cloud_sql.deletion.failed: " ++ nm ++ " was not found")) ∧
    ((deleteInstance (some recRunning) delEnvAllAbsent).reply.status_code
        = 200 ∧
      (deleteInstance (some recRunning) delEnvAllAbsent).transitions
        = [(InstanceStatus.running, InstanceStatus.deleting),
           (InstanceStatus.deleting, InstanceStatus.deleted)] ∧
      (deleteInstance (some recRunning) delEnvAllAbsent).deleted_resources
        = [] ∧
      (deleteInstance (some recRunning) delEnvAllAbsent).deletion_errors.length
        = 6) := by
  refine ⟨fun store nm h => ?_, rfl, rfl, rfl, rfl⟩
  have h' : nm ∉ store := by simpa using h
  refine ⟨?_, ?_, ?_⟩ <;>
    simp [deleteSecret, deleteCloudRunService, deleteCloudSqlInstance, h, h']

/-- Closed witness for the hypothesis-bearing part of
`delete_absent_amended`, at the empty store. -/
theorem delete_absent_amended_witness :
    deleteSecret [] "k"
        = .error ("secret.deletion.failed: " ++ "k" ++ " was not found") ∧
      deleteCloudRunService [] "k"
        = .error ("cloud_run.deletion.failed: " ++ "k" ++ " was not found") ∧
      deleteCloudSqlInstance [] "k"
        = .error ("cloud_sql.deletion.failed: " ++ "k" ++ " was not found") :=
  delete_absent_amended.1 [] "k" rfl

/-- The retry loop reports lenient success exactly when no attempt in its
window returns HTTP 200. -/
theorem validateLoop_lenient (f : Nat → AttemptOutcome) :
    ∀ (fuel start sleeps : Nat),
      ((validateLoop f start fuel sleeps).1 = .lenient_success ↔
        ∀ i, i < fuel → is200 (f (start + i)) = false) := by
  intro fuel
  induction fuel with
  | zero =>
    intro start sleeps
    constructor
    · intro _ i hi; exact absurd hi (Nat.not_lt_zero i)
    · intro _; rfl
  | succ n ih =>
    intro start sleeps
    cases hf : f start with
    | response code =>
      by_cases hc : (code == 200) = true
      · simp only [validateLoop, hf, hc, if_true]
        constructor
        · intro h; exact absurd h (by simp)
        · intro h
          exfalso
          have h0 := h 0 (Nat.succ_pos n)
          rw [Nat.add_zero, hf] at h0
          simp [is200, hc] at h0
      · have hcf : (code == 200) = false := by simpa using hc
        simp only [validateLoop, hf, hcf, Bool.false_eq_true, if_false]
        rw [ih (start + 1) sleeps]
        constructor
        · intro h i hi
          cases i with
          | zero => rw [Nat.add_zero, hf]; simpa [is200] using hcf
          | succ j =>
            have hj := h j (by omega)
            rw [show start + (j + 1) = start + 1 + j from by omega]
            exact hj
        · intro h j hj
          have := h (j + 1) (by omega)
          rw [show start + 1 + j = start + (j + 1) from by omega]
          exact this
    | network_error m =>
      simp only [validateLoop, hf]
      rw [ih (start + 1) (sleeps + 1)]
      constructor
      · intro h i hi
        cases i with
        | zero => rw [Nat.add_zero, hf]; simp [is200]
        | succ j =>
          have hj := h j (by omega)
          rw [show start + (j + 1) = start + 1 + j from by omega]
          exact hj
      · intro h j hj
        have := h (j + 1) (by omega)
        rw [show start + 1 + j = start + (j + 1) from by omega]
        exact this

/-- When the retry loop reports a passing attempt, that attempt is inside
the window, returned HTTP 200, and every earlier attempt in the window did
not. -/
theorem validateLoop_passed (f : Nat → AttemptOutcome) :
    ∀ (fuel start sleeps k : Nat),
      (validateLoop f start fuel sleeps).1 = .passed k →
        start ≤ k ∧ k < start + fuel ∧ is200 (f k) = true ∧
          ∀ j, start ≤ j → j < k → is200 (f j) = false := by
  intro fuel
  induction fuel with
  | zero =>
    intro start sleeps k h
    exact absurd h (by simp [validateLoop])
  | succ n ih =>
    intro start sleeps k h
    cases hf : f start with
    | response code =>
      by_cases hc : (code == 200) = true
      · simp only [validateLoop, hf, hc, if_true] at h
        have hk : start = k := by simpa using h
        subst hk
        refine ⟨Nat.le_refl start, by omega, ?_, ?_⟩
        · rw [hf]; simpa [is200] using hc
        · intro j hj1 hj2; omega
      · have hcf : (code == 200) = false := by simpa using hc
        simp only [validateLoop, hf, hcf, Bool.false_eq_true, if_false] at h
        obtain ⟨ha, hb, hcc, hd⟩ := ih (start + 1) sleeps k h
        refine ⟨by omega, by omega, hcc, ?_⟩
        intro j hj1 hj2
        rcases Nat.eq_or_lt_of_le hj1 with heq | hlt
        · rw [← heq, hf]; simpa [is200] using hcf
        · exact hd j (by omega) hj2
    | network_error m =>
      simp only [validateLoop, hf] at h
      obtain ⟨ha, hb, hcc, hd⟩ := ih (start + 1) (sleeps + 1) k h
      refine ⟨by omega, by omega, hcc, ?_⟩
      intro j hj1 hj2
      rcases Nat.eq_or_lt_of_le hj1 with heq | hlt
      · rw [← heq, hf]; simp [is200]
      · exact hd j (by omega) hj2

/-- When no attempt raises a network error, the loop never sleeps: a non-200
response retries immediately with no inter-attempt delay. -/
theorem validateLoop_sleeps_no_network (f : Nat → AttemptOutcome)
    (hall : ∀ j, isNet (f j) = false) :
    ∀ (fuel start sleeps : Nat),
      (validateLoop f start fuel sleeps).2 = sleeps := by
  intro fuel
  induction fuel with
  | zero => intro start sleeps; rfl
  | succ n ih =>
    intro start sleeps
    cases hf : f start with
    | response code =>
      by_cases hc : (code == 200) = true
      · simp [validateLoop, hf, hc]
      · have hcf : (code == 200) = false := by simpa using hc
        simp only [validateLoop, hf, hcf, Bool.false_eq_true, if_false]
        exact ih (start + 1) sleeps
    | network_error m =>
      have := hall start
      rw [hf] at this
      simp [isNet] at this

/-- When every attempt raises a network error, the loop sleeps after each of
its attempts and ends leniently. -/
theorem validateLoop_sleeps_all_network (f : Nat → AttemptOutcome)
    (hall : ∀ j, isNet (f j) = true) :
    ∀ (fuel start sleeps : Nat),
      (validateLoop f start fuel sleeps).2 = sleeps + fuel ∧
        (validateLoop f start fuel sleeps).1 = .lenient_success := by
  intro fuel
  induction fuel with
  | zero => intro start sleeps; exact ⟨rfl, rfl⟩
  | succ n ih =>
    intro start sleeps
    cases hf : f start with
    | response code =>
      have := hall start
      rw [hf] at this
      simp [isNet] at this
    | network_error m =>
      simp only [validateLoop, hf]
      obtain ⟨ha, hb⟩ := ih (start + 1) (sleeps + 1)
      exact ⟨by rw [ha]; omega, hb⟩

/-- C2 counterexample: when every health probe answers HTTP 503, exhausting
the 10-attempt budget still reports success (the source logs a warning and
returns normally), with zero inter-attempt sleeps — and the result is the
same under a completely different configuration, because the validator
consults no configuration at all: the leniency is an implicit hardcoded
default, not an explicit option, and no timeout error exists. -/
theorem health_check_exhaustion_is_implicit_default :
    validateDeployment defaultSettings alwaysServiceUnavailable
      = (ValidationOutcome.lenient_success, 0) ∧
    validateDeployment altSettings alwaysServiceUnavailable
      = (ValidationOutcome.lenient_success, 0) :=
  ⟨rfl, rfl⟩

/-- C2 amended: the validator is configuration-independent; it reports
lenient success exactly when none of its 10 attempts returns HTTP 200, and a
passing result names an attempt below 10 that returned 200 with no earlier
200; runs with only non-200 responses sleep zero times (no inter-attempt
delay on that path), while runs with only network errors sleep after each of
the 10 attempts and still end leniently successful. -/
theorem health_validation_amended (s : Settings)
    (f : Nat → AttemptOutcome) :
    validateDeployment s f = validateDeployment defaultSettings f ∧
    ((validateDeployment s f).1 = .lenient_success ↔
      ∀ i, i < 10 → is200 (f i) = false) ∧
    (∀ k, (validateDeployment s f).1 = .passed k →
      k < 10 ∧ is200 (f k) = true ∧ ∀ j, j < k → is200 (f j) = false) ∧
    ((∀ j, isNet (f j) = false) → (validateDeployment s f).2 = 0) ∧
    ((∀ j, isNet (f j) = true) →
      (validateDeployment s f).1 = .lenient_success ∧
        (validateDeployment s f).2 = 10) := by
  refine ⟨rfl, ?_, ?_, ?_, ?_⟩
  · have h := validateLoop_lenient f 10 0 0
    simpa [validateDeployment] using h
  · intro k h
    obtain ⟨h1, h2, h3, h4⟩ := validateLoop_passed f 10 0 0 k h
    exact ⟨by omega, h3, fun j hj => h4 j (Nat.zero_le j) hj⟩
  · intro hall
    exact validateLoop_sleeps_no_network f hall 10 0 0
  · intro hall
    obtain ⟨ha, hb⟩ := validateLoop_sleeps_all_network f hall 10 0 0
    exact ⟨hb, by simpa using ha⟩

/-- Closed witness for `health_validation_amended` at the behaviour that
answers 200 on every attempt. -/
theorem health_validation_amended_witness :
    validateDeployment defaultSettings always200
      = validateDeployment defaultSettings always200 ∧
    ((validateDeployment defaultSettings always200).1 = .lenient_success ↔
      ∀ i, i < 10 → is200 (always200 i) = false) ∧
    (∀ k, (validateDeployment defaultSettings always200).1 = .passed k →
      k < 10 ∧ is200 (always200 k) = true ∧
        ∀ j, j < k → is200 (always200 j) = false) ∧
    ((∀ j, isNet (always200 j) = false) →
      (validateDeployment defaultSettings always200).2 = 0) ∧
    ((∀ j, isNet (always200 j) = true) →
      (validateDeployment defaultSettings always200).1 = .lenient_success ∧
        (validateDeployment defaultSettings always200).2 = 10) :=
  health_validation_amended defaultSettings always200

end MemCloud
